import Mathlib

/-!
Verification of the WebSocket order-taking relay (`main.py`, `database.py`).

The development shallowly embeds the Python code: JSON values become the
inductive type `JValue`; per-frame processing of the two forwarding loops
becomes pure functions returning the frames sent and the database effect;
Python exceptions become `Except PyErr`.  `datetime.now` is modelled by an
explicit `now : Nat` parameter, and the possibility that the database commit
raises is modelled by a boolean `dbFail` oracle.
-/

/-- A JSON value, as produced by Python's `json.loads`.  Numbers are modelled
by exact rationals (Python distinguishes int and float but compares them by
numeric value; none of the verified properties depend on float rounding). -/
inductive JValue where
  | null : JValue
  | bool (b : Bool) : JValue
  | num (q : Rat) : JValue
  | str (s : String) : JValue
  | arr (xs : List JValue) : JValue
  | obj (fields : List (String × JValue)) : JValue

/-- Python exceptions relevant to the embedded code. -/
inductive PyErr where
  | jsonError : PyErr
  | keyError : PyErr
  | typeError : PyErr
  | attrError : PyErr
  | valueError : PyErr
  | dbError : PyErr

/-- Python subscription `v[k]` with a string key: dict lookup (KeyError when
the key is missing), TypeError on any non-dict value. -/
def JValue.item (v : JValue) (k : String) : Except PyErr JValue :=
  match v with
  | .obj fs =>
    match fs.lookup k with
    | some x => .ok x
    | none => .error .keyError
  | _ => .error .typeError

/-- Python `d.get(k, dflt)`: only dicts have `.get`; any other value raises
AttributeError. -/
def pyGet (v : JValue) (k : String) (dflt : JValue) : Except PyErr JValue :=
  match v with
  | .obj fs => .ok ((fs.lookup k).getD dflt)
  | _ => .error .attrError

/-- Python `k in v` for a string `k`: key membership for dicts, element
membership for lists, substring test for strings, TypeError otherwise. -/
def pyContains (k : String) (v : JValue) : Except PyErr Bool :=
  match v with
  | .obj fs => .ok (fs.any (fun kv => kv.1 == k))
  | .arr xs => .ok (xs.any (fun x => match x with | .str s => s == k | _ => false))
  | .str s => .ok (decide (k.toList <:+: s.toList))
  | _ => .error .typeError

/-- Python `for x in v`: lists yield their elements, dicts their keys,
strings their characters; other values raise TypeError. -/
def pyIter (v : JValue) : Except PyErr (List JValue) :=
  match v with
  | .arr xs => .ok xs
  | .obj fs => .ok (fs.map (fun kv => .str kv.1))
  | .str s => .ok (s.toList.map (fun c => .str (String.singleton c)))
  | _ => .error .typeError

/-- Truncation toward zero of a rational, matching Python `int()` applied to
a float or int. -/
def ratTrunc (q : Rat) : Int := q.num.tdiv q.den

/-- Python `int(v)` on a JSON value: numbers truncate toward zero, booleans
are 0/1, strings are parsed as (optionally signed) decimal integers,
anything else raises TypeError. -/
def pyInt (v : JValue) : Except PyErr Int :=
  match v with
  | .num q => .ok (ratTrunc q)
  | .bool b => .ok (if b then 1 else 0)
  | .str s =>
    match s.trim.toInt? with
    | some n => .ok n
    | none => .error .valueError
  | _ => .error .typeError

/-- Parse an unsigned decimal literal `digits[.digits]` as a rational. -/
def parseUnsignedDecimal (s : String) : Option Rat :=
  match s.splitOn "." with
  | [a] => a.toNat?.map (fun n => (n : Rat))
  | [a, b] =>
    match a.toNat?, b.toNat? with
    | some n, some f =>
      if b.length = 0 then none
      else some ((n : Rat) + (f : Rat) / ((10 : Rat) ^ b.length))
    | _, _ => none
  | _ => none

/-- Python `float(s)` on a string: optional sign and decimal point.
(Exponent, inf and nan syntax are not modelled; no verified property
exercises them.) -/
def pyFloatOfString (s : String) : Option Rat :=
  let t := s.trim
  if t.startsWith "-" then (parseUnsignedDecimal (t.drop 1)).map (fun q => -q)
  else if t.startsWith "+" then parseUnsignedDecimal (t.drop 1)
  else parseUnsignedDecimal t

/-- Python `float(v)` on a JSON value: numbers pass through, booleans are
0/1, strings are parsed, anything else raises TypeError. -/
def pyFloat (v : JValue) : Except PyErr Rat :=
  match v with
  | .num q => .ok q
  | .bool b => .ok (if b then 1 else 0)
  | .str s =>
    match pyFloatOfString s with
    | some q => .ok q
    | none => .error .valueError
  | _ => .error .typeError

mutual
/-- Python `json.dumps` (the `indent=2` pretty-printing and string escaping
are abstracted to a compact rendering; no verified property depends on the
rendering). -/
def JValue.dumps : JValue → String
  | .null => "null"
  | .bool b => if b then "true" else "false"
  | .num q => toString q
  | .str s => "\"" ++ s ++ "\""
  | .arr xs => "[" ++ dumpsList xs ++ "]"
  | .obj fs => "\x7b" ++ dumpsFields fs ++ "\x7d"

/-- Comma-separated rendering of a JSON array body. -/
def dumpsList : List JValue → String
  | [] => ""
  | [x] => x.dumps
  | x :: xs => x.dumps ++ ", " ++ dumpsList xs

/-- Comma-separated rendering of a JSON object body. -/
def dumpsFields : List (String × JValue) → String
  | [] => ""
  | [(k, v)] => "\"" ++ k ++ "\": " ++ v.dumps
  | (k, v) :: fs => "\"" ++ k ++ "\": " ++ v.dumps ++ ", " ++ dumpsFields fs
end

/-- One row of the `orders` table (`database.py`, class `Order`): item,
quantity, price as passed to the constructor, `status` defaulting from the
call site, `created_at` assigned at insert time (modelled by the explicit
clock value `now`).  The autoincrement `id` column is the list position. -/
structure OrderRec where
  item : JValue
  quantity : Int
  price : Rat
  status : String
  created_at : Nat

/-- Body of `save_order` (`main.py` lines 38-44): open a session, build the
row with `status="pending"`, add and commit.  A raising database operation
(I/O or constraint failure) is modelled by the `dbFail` oracle. -/
def save_order_body (dbFail : Bool) (db : List OrderRec) (now : Nat)
    (item : JValue) (quantity : Int) (price : Rat) : Except PyErr (List OrderRec) :=
  if dbFail then .error .dbError
  else .ok (db ++ [⟨item, quantity, price, "pending", now⟩])

/-- `save_order` (`main.py` lines 37-46): the whole body runs under
`try/except Exception`, so a database failure is logged and swallowed and
the function returns normally with the store unchanged. -/
def save_order (dbFail : Bool) (db : List OrderRec) (now : Nat)
    (item : JValue) (quantity : Int) (price : Rat) : Except PyErr (List OrderRec) :=
  match save_order_body dbFail db now item quantity price with
  | .ok db2 => .ok db2
  | .error _ => .ok db

/-- `get_orders` (`main.py` lines 189-191):
`db.query(Order).order_by(Order.created_at.desc()).all()` — all rows sorted
by creation timestamp, newest first.  The SQL sort is modelled by
`List.insertionSort` with the descending-timestamp relation. -/
def get_orders (db : List OrderRec) : List OrderRec :=
  db.insertionSort (fun a b => b.created_at ≤ a.created_at)

/-- The upstream realtime-input frame built at `main.py` lines 130-132. -/
def upstreamAudioFrame (p : JValue) : JValue :=
  .obj [("realtimeInput", .obj [("mediaChunks",
    .arr [.obj [("mimeType", .str "audio/pcm"), ("data", p)]])])]

/-- Per-frame processing of the outbound loop `browser_to_gemini`
(`main.py` lines 127-132).  The input is the result of `json.loads` on the
inbound text frame (`none` when parsing raised); the output is the frame
passed to `self.ws.send`, if any (the upstream send itself is modelled as
succeeding).  `data.get("type")` raises AttributeError on non-dict values;
`data["audio"]` raises KeyError when the key is missing. -/
def browser_to_gemini_step (parsed : Option JValue) : Except PyErr (Option JValue) :=
  match parsed with
  | none => .error .jsonError
  | some data =>
    match data with
    | .obj fs =>
      match fs.lookup "type" with
      | some (.str s) =>
        if s == "audio" then
          match fs.lookup "audio" with
          | some p => .ok (some (upstreamAudioFrame p))
          | none => .error .keyError
        else .ok none
      | _ => .ok none
    | _ => .error .attrError

/-- The tool-response frame built at `main.py` lines 147-155. -/
def toolResponseFrame (id : JValue) : JValue :=
  .obj [("toolResponse", .obj [("functionResponses",
    .arr [.obj [("name", .str "place_order"), ("id", id),
      ("response", .obj [("result", .obj [("status", .str "success")])])]])])]

/-- The client playback frame built at `main.py` lines 161-164. -/
def clientAudioFrame (d : JValue) : JValue :=
  .obj [("type", .str "audio"), ("data", d)]

/-- Accumulated result of processing one upstream frame in
`gemini_to_browser`: the arguments of each `save_order` call, the frames
passed to `self.ws.send` and to `self.client_ws.send_json`, the database
after the frame, and the exception that ended the loop, if any. -/
structure GeminiStepResult where
  saves : List (JValue × Int × Rat)
  upstreamSends : List JValue
  clientSends : List JValue
  db : List OrderRec
  err : Option PyErr

/-- One iteration of the `for fc in response["toolCall"]["functionCalls"]`
loop (`main.py` lines 143-155), in Python evaluation order: `fc["name"]`,
the comparison with `"place_order"`, `fc["args"]`, `args["item"]`,
`int(args["quantity"])`, `float(args["price"])`, the `save_order` call,
then `fc["id"]` while building the tool-response frame, then the send.
An exception stops the loop but keeps the effects already performed. -/
def procToolCall (dbFail : Bool) (now : Nat) (st : GeminiStepResult)
    (fc : JValue) : GeminiStepResult :=
  if st.err.isSome then st else
  match fc.item "name" with
  | .error e => { st with err := some e }
  | .ok nameV =>
    if (match nameV with | .str s => s == "place_order" | _ => false) then
      match fc.item "args" with
      | .error e => { st with err := some e }
      | .ok args =>
        match args.item "item" with
        | .error e => { st with err := some e }
        | .ok itemV =>
          match args.item "quantity" with
          | .error e => { st with err := some e }
          | .ok qv =>
            match pyInt qv with
            | .error e => { st with err := some e }
            | .ok q =>
              match args.item "price" with
              | .error e => { st with err := some e }
              | .ok pv =>
                match pyFloat pv with
                | .error e => { st with err := some e }
                | .ok p =>
                  match save_order dbFail st.db now itemV q p with
                  | .error e => { st with err := some e }
                  | .ok db2 =>
                    match fc.item "id" with
                    | .error e =>
                      { st with saves := st.saves ++ [(itemV, q, p)],
                                db := db2, err := some e }
                    | .ok idV =>
                      { st with saves := st.saves ++ [(itemV, q, p)],
                                upstreamSends := st.upstreamSends ++ [toolResponseFrame idV],
                                db := db2 }
    else st

/-- One iteration of the `for part in parts` loop (`main.py` lines
159-164): `"inlineData" in part`, then `part["inlineData"]["data"]`, then
`send_json`. -/
def procPart (st : GeminiStepResult) (part : JValue) : GeminiStepResult :=
  if st.err.isSome then st else
  match pyContains "inlineData" part with
  | .error e => { st with err := some e }
  | .ok has =>
    if has then
      match part.item "inlineData" >>= (fun x => x.item "data") with
      | .error e => { st with err := some e }
      | .ok d => { st with clientSends := st.clientSends ++ [clientAudioFrame d] }
    else st

/-- `parts = response["serverContent"].get("modelTurn", {}).get("parts", [])`
followed by iteration (`main.py` line 158). -/
def serverContentParts (response : JValue) : Except PyErr (List JValue) := do
  let sc ← response.item "serverContent"
  let mt ← pyGet sc "modelTurn" (.obj [])
  let parts ← pyGet mt "parts" (.arr [])
  pyIter parts

/-- Per-frame processing of the inbound loop `gemini_to_browser`
(`main.py` lines 139-164).  The input is the result of `json.loads` on the
upstream frame (`none` when parsing raised).  The `toolCall` and
`serverContent` sections are independent, non-exclusive extractions run in
source order; an exception anywhere ends the loop, keeping prior effects. -/
def processGeminiFrame (dbFail : Bool) (now : Nat) (db : List OrderRec)
    (parsed : Option JValue) : GeminiStepResult :=
  match parsed with
  | none => ⟨[], [], [], db, some .jsonError⟩
  | some response =>
    let st0 : GeminiStepResult := ⟨[], [], [], db, none⟩
    let st1 :=
      match pyContains "toolCall" response with
      | .error e => { st0 with err := some e }
      | .ok true =>
        match (response.item "toolCall" >>= (fun tc => tc.item "functionCalls")) >>= pyIter with
        | .error e => { st0 with err := some e }
        | .ok fcs => fcs.foldl (procToolCall dbFail now) st0
      | .ok false => st0
    if st1.err.isSome then st1 else
    match pyContains "serverContent" response with
    | .error e => { st1 with err := some e }
    | .ok true =>
      match serverContentParts response with
      | .error e => { st1 with err := some e }
      | .ok parts => parts.foldl procPart st1
    | .ok false => st1

/-- `MODEL_ID` (`main.py` line 30). -/
def MODEL_ID : String := "models/gemini-2.5-flash-native-audio-preview-12-2025"

/-- `TOOL_DEFINITIONS` (`main.py` lines 48-62), as the JSON value embedded
in the setup frame. -/
def TOOL_DEFINITIONS : JValue :=
  .arr [.obj [("function_declarations", .arr [.obj [
    ("name", .str "place_order"),
    ("description", .str "Save order to database"),
    ("parameters", .obj [
      ("type", .str "OBJECT"),
      ("properties", .obj [
        ("item", .obj [("type", .str "STRING")]),
        ("quantity", .obj [("type", .str "INTEGER")]),
        ("price", .obj [("type", .str "NUMBER")])]),
      ("required", .arr [.str "item", .str "quantity", .str "price"])])]])]]

/-- The 28-space indentation of the system-prompt f-string body. -/
def promptIndent : String := "                            "

/-- The system-instruction f-string (`main.py` lines 107-119) with the menu
text interpolated at its `\x7bmenu_text\x7d` hole. -/
def system_prompt (menu_text : String) : String :=
  "\n" ++ promptIndent ++ "You are a friendly and efficient Pakistani waiter.\n"
    ++ promptIndent ++ "\n"
    ++ promptIndent ++ "**MENU DATABASE (STRICTLY FOLLOW THIS):**\n"
    ++ promptIndent ++ menu_text ++ "\n\n"
    ++ promptIndent ++ "**INSTRUCTIONS:**\n"
    ++ promptIndent ++ "1. Speak in a natural mix of **English + Roman Urdu**.\n"
    ++ promptIndent ++ "2. You can ONLY sell items listed in the MENU DATABASE above.\n"
    ++ promptIndent ++ "3. If an item is not in the list, politely say it is unavailable.\n"
    ++ promptIndent ++ "4. Confirm the exact price from the menu before calling the 'place_order' tool.\n"
    ++ promptIndent ++ "5. Once confirmed, call the 'place_order' tool immediately.\n"
    ++ promptIndent

/-- The setup/handshake frame (`main.py` lines 98-122). -/
def setupFrame (menu_text : String) : JValue :=
  .obj [("setup", .obj [
    ("model", .str MODEL_ID),
    ("tools", TOOL_DEFINITIONS),
    ("generationConfig", .obj [
      ("responseModalities", .arr [.str "AUDIO"]),
      ("speechConfig", .obj [("voiceConfig",
        .obj [("prebuiltVoiceConfig", .obj [("voiceName", .str "Charon")])])])]),
    ("systemInstruction", .obj [("parts",
      .arr [.obj [("text", .str (system_prompt menu_text))]])])])]

/-- State of the `menu.json` file at session start (`main.py` lines 72-83):
missing, present but unreadable (`open`/read raises), present but invalid
JSON (`json.load` raises), or present with a parsed value. -/
inductive MenuState where
  | absent : MenuState
  | unreadable : MenuState
  | invalidJson : MenuState
  | valid (j : JValue) : MenuState

/-- Menu loading (`main.py` lines 72-83): `menu_text` starts as the
placeholder; only the successful `json.load` path overwrites it with
`json.dumps(menu_data, indent=2)`; the missing-file branch logs a warning
and every exception is caught and logged. -/
def load_menu : MenuState → String
  | .absent => "Menu not available."
  | .unreadable => "Menu not available."
  | .invalidJson => "Menu not available."
  | .valid j => j.dumps

/-- Observable outcome of one `GeminiChatbot.run` call: the setup frame
passed to `gemini_ws.send` (if reached), how many times
`self.client_ws.close()` ran, whether the two forwarding loops were
started, and whether a forwarding task ended with an exception (held by
the task object, since `asyncio.wait` does not re-raise it). -/
structure RunResult where
  setupSent : Option JValue
  clientCloses : Nat
  reachedRelaying : Bool
  loopErrorRaised : Bool

namespace GeminiChatbot

/-- Session control flow of `GeminiChatbot.run` (`main.py` lines 69-181).
`connectOk` is whether `websockets.connect` succeeds, `setupSendOk` whether
the setup send succeeds, `loopFails` whether a forwarding loop exits by
raising.  A connect or setup-send failure propagates to the
`except Exception` at line 179, which closes the client channel.  When the
loops run, `asyncio.wait(..., return_when=FIRST_COMPLETED)` returns the
`(done, pending)` sets without re-raising exceptions held by the done
tasks; the pending task is cancelled, the `async with` closes the upstream
connection, and `run` returns without entering the `except` handler, so
the client channel is not closed on that path. -/
def run (menu : MenuState) (connectOk setupSendOk : Bool) (loopFails : Bool) : RunResult :=
  let menu_text := load_menu menu
  if connectOk = false then
    { setupSent := none, clientCloses := 1, reachedRelaying := false, loopErrorRaised := false }
  else if setupSendOk = false then
    { setupSent := none, clientCloses := 1, reachedRelaying := false, loopErrorRaised := false }
  else
    { setupSent := some (setupFrame menu_text), clientCloses := 0,
      reachedRelaying := true, loopErrorRaised := loopFails }

end GeminiChatbot

/-- A well-formed function call inside an upstream tool-call frame
(protocol shape `\x7b"name", "id", "args": \x7b"item", "quantity", "price"\x7d\x7d`
with an integer quantity and numeric price). -/
structure ToolCallFC where
  name : String
  id : JValue
  item : JValue
  quantity : Int
  price : Rat

/-- The JSON encoding of a well-formed function call. -/
def ToolCallFC.toJson (fc : ToolCallFC) : JValue :=
  .obj [("name", .str fc.name), ("id", fc.id),
    ("args", .obj [("item", fc.item), ("quantity", .num (fc.quantity : Rat)),
      ("price", .num fc.price)])]

/-- The arguments `save_order` receives for a function call. -/
def ToolCallFC.toSave (fc : ToolCallFC) : JValue × Int × Rat :=
  (fc.item, fc.quantity, fc.price)

/-- The order row a function call produces when the commit succeeds. -/
def ToolCallFC.toOrder (now : Nat) (fc : ToolCallFC) : OrderRec :=
  ⟨fc.item, fc.quantity, fc.price, "pending", now⟩

/-- An upstream tool-call frame carrying the given function calls. -/
def toolCallFrame (fcs : List ToolCallFC) : JValue :=
  .obj [("toolCall", .obj [("functionCalls", .arr (fcs.map ToolCallFC.toJson))])]

/-- A well-formed part of an upstream server-content frame: either an
inline-data part carrying a payload, or a part without `inlineData`. -/
structure SCPart where
  inline : Option JValue

/-- The JSON encoding of a server-content part. -/
def SCPart.toJson : SCPart → JValue
  | ⟨some d⟩ => .obj [("inlineData", .obj [("data", d)])]
  | ⟨none⟩ => .obj [("text", .str "t")]

/-- An upstream server-content frame carrying the given parts. -/
def serverContentFrame (ps : List SCPart) : JValue :=
  .obj [("serverContent", .obj [("modelTurn", .obj [("parts",
    .arr (ps.map SCPart.toJson))])])]

/-- Rendering of `int()` on an integer-valued JSON number. -/
theorem pyInt_intCast (n : Int) : pyInt (.num (n : Rat)) = .ok n := by
  simp [pyInt, ratTrunc, Rat.num_intCast, Rat.den_intCast, Int.tdiv_one]

/-- `save_order` never raises: a failing commit leaves the store unchanged,
a succeeding one appends the new pending row. -/
theorem save_order_eq (dbFail : Bool) (db : List OrderRec) (now : Nat)
    (item : JValue) (q : Int) (p : Rat) :
    save_order dbFail db now item q p =
      .ok (if dbFail then db else db ++ [⟨item, q, p, "pending", now⟩]) := by
  cases dbFail <;> rfl

/-- Closed form of the function-call loop over well-formed calls: each call
named `place_order` yields one `save_order` call and one tool-response
send, in list order; other calls are skipped; no exception is raised. -/
theorem procToolCall_foldl (dbFail : Bool) (now : Nat) (fcs : List ToolCallFC)
    (st : GeminiStepResult) (h : st.err = none) :
    (fcs.map ToolCallFC.toJson).foldl (procToolCall dbFail now) st =
      { saves := st.saves ++
          ((fcs.filter (fun fc => fc.name == "place_order")).map ToolCallFC.toSave),
        upstreamSends := st.upstreamSends ++
          ((fcs.filter (fun fc => fc.name == "place_order")).map (fun fc => toolResponseFrame fc.id)),
        clientSends := st.clientSends,
        db := st.db ++ (if dbFail then [] else
          ((fcs.filter (fun fc => fc.name == "place_order")).map (ToolCallFC.toOrder now))),
        err := none } := by
  induction fcs generalizing st with
  | nil =>
    obtain ⟨s, u, c, d, e⟩ := st
    simp only [GeminiStepResult.err] at h
    subst h
    simp
  | cons fc rest ih =>
    obtain ⟨s, u, c, d, e⟩ := st
    simp only [GeminiStepResult.err] at h
    subst h
    rw [List.map_cons, List.foldl_cons]
    cases hn : fc.name == "place_order" with
    | false =>
      have hstep : procToolCall dbFail now ⟨s, u, c, d, none⟩ fc.toJson = ⟨s, u, c, d, none⟩ := by
        simp [procToolCall, ToolCallFC.toJson, JValue.item, List.lookup, hn]
      rw [hstep, ih _ rfl]
      simp [List.filter_cons, hn]
    | true =>
      have hstep : procToolCall dbFail now ⟨s, u, c, d, none⟩ fc.toJson =
          ⟨s ++ [fc.toSave], u ++ [toolResponseFrame fc.id], c,
            if dbFail then d else d ++ [fc.toOrder now], none⟩ := by
        simp [procToolCall, ToolCallFC.toJson, JValue.item, List.lookup, hn, pyInt_intCast,
          pyFloat, save_order_eq, ToolCallFC.toSave, ToolCallFC.toOrder]
      rw [hstep, ih _ rfl]
      simp only [List.filter_cons, hn, if_true, List.map_cons]
      cases dbFail <;> simp [ToolCallFC.toSave, ToolCallFC.toOrder]

/-- Closed form of `gemini_to_browser` on a well-formed tool-call frame. -/
theorem processGeminiFrame_toolCallFrame (dbFail : Bool) (now : Nat)
    (db : List OrderRec) (fcs : List ToolCallFC) :
    processGeminiFrame dbFail now db (some (toolCallFrame fcs)) =
      { saves := (fcs.filter (fun fc => fc.name == "place_order")).map ToolCallFC.toSave,
        upstreamSends :=
          (fcs.filter (fun fc => fc.name == "place_order")).map (fun fc => toolResponseFrame fc.id),
        clientSends := [],
        db := db ++ (if dbFail then [] else
          ((fcs.filter (fun fc => fc.name == "place_order")).map (ToolCallFC.toOrder now))),
        err := none } := by
  have h1 : pyContains "toolCall" (toolCallFrame fcs) = .ok true := rfl
  have h2 : ((toolCallFrame fcs).item "toolCall" >>= (fun tc => tc.item "functionCalls")) >>= pyIter
      = .ok (fcs.map ToolCallFC.toJson) := rfl
  have h3 : pyContains "serverContent" (toolCallFrame fcs) = .ok false := rfl
  simp only [processGeminiFrame, h1, h2, h3]
  rw [procToolCall_foldl dbFail now fcs ⟨[], [], [], db, none⟩ rfl]
  simp

/-- Closed form of the parts loop over well-formed server-content parts:
each inline-data part yields one client audio frame, in part order; parts
without `inlineData` yield nothing; no exception is raised. -/
theorem procPart_foldl (ps : List SCPart) (st : GeminiStepResult) (h : st.err = none) :
    (ps.map SCPart.toJson).foldl procPart st =
      { st with clientSends :=
          st.clientSends ++ (ps.filterMap SCPart.inline).map clientAudioFrame } := by
  induction ps generalizing st with
  | nil =>
    obtain ⟨s, u, c, d, e⟩ := st
    simp only [GeminiStepResult.err] at h
    subst h
    simp
  | cons p rest ih =>
    obtain ⟨s, u, c, d, e⟩ := st
    simp only [GeminiStepResult.err] at h
    subst h
    rw [List.map_cons, List.foldl_cons]
    obtain ⟨inl⟩ := p
    cases inl with
    | none =>
      have hstep : procPart ⟨s, u, c, d, none⟩ (SCPart.toJson ⟨none⟩) = ⟨s, u, c, d, none⟩ := by
        simp [procPart, SCPart.toJson, pyContains]
      rw [hstep, ih _ rfl]
      simp [List.filterMap_cons]
    | some dta =>
      have hstep : procPart ⟨s, u, c, d, none⟩ (SCPart.toJson ⟨some dta⟩) =
          ⟨s, u, c ++ [clientAudioFrame dta], d, none⟩ := rfl
      rw [hstep, ih _ rfl]
      simp [List.filterMap_cons]

/-- Closed form of `gemini_to_browser` on a well-formed server-content
frame. -/
theorem processGeminiFrame_serverContentFrame (dbFail : Bool) (now : Nat)
    (db : List OrderRec) (ps : List SCPart) :
    processGeminiFrame dbFail now db (some (serverContentFrame ps)) =
      { saves := [],
        upstreamSends := [],
        clientSends := (ps.filterMap SCPart.inline).map clientAudioFrame,
        db := db,
        err := none } := by
  have h1 : pyContains "toolCall" (serverContentFrame ps) = .ok false := rfl
  have h2 : pyContains "serverContent" (serverContentFrame ps) = .ok true := rfl
  have h3 : serverContentParts (serverContentFrame ps) = .ok (ps.map SCPart.toJson) := rfl
  simp only [processGeminiFrame, h1, h2, h3]
  rw [procPart_foldl ps ⟨[], [], [], db, none⟩ rfl]
  simp

/-- Whether the `type` field of a parsed client frame is the string
`"audio"` (the condition tested at `main.py` line 129). -/
def clientFrameTypeIsAudio (fs : List (String × JValue)) : Bool :=
  match fs.lookup "type" with
  | some (.str s) => s == "audio"
  | _ => false

/-- Whether one outbound-loop iteration raises, ending the loop. -/
def outboundStepFatal (parsed : Option JValue) : Bool :=
  match browser_to_gemini_step parsed with
  | .error _ => true
  | .ok _ => false

/-- Modelled from the claim of C10 (not from the source): per-frame
processing fails exactly on frames that are not valid JSON, or that are
JSON objects typed `"audio"` without an `"audio"` key. -/
def claimedOutboundFatal (parsed : Option JValue) : Bool :=
  match parsed with
  | none => true
  | some (.obj fs) => clientFrameTypeIsAudio fs && (fs.lookup "audio").isNone
  | some _ => false

/-- The amended fatality condition, read off the source: parse failure,
any non-object JSON value (`.get` on it raises AttributeError), or an
audio-typed object without an `"audio"` key. -/
def amendedOutboundFatal (parsed : Option JValue) : Bool :=
  match parsed with
  | none => true
  | some (.obj fs) => clientFrameTypeIsAudio fs && (fs.lookup "audio").isNone
  | some _ => true

/-- C2: for every upstream tool-call frame, each contained call named
`place_order` with valid args yields exactly one `save_order` call with
those values and exactly one tool-response frame whose id is that call's
id, in call order; the loop does not fail; and both the saves and the
responses are identical whether the database commit succeeds or fails. -/
theorem toolCall_place_order_save_and_response (dbFail dbFail' : Bool) (now : Nat)
    (db : List OrderRec) (fcs : List ToolCallFC) :
    (processGeminiFrame dbFail now db (some (toolCallFrame fcs))).saves
        = (fcs.filter (fun fc => fc.name == "place_order")).map ToolCallFC.toSave
    ∧ (processGeminiFrame dbFail now db (some (toolCallFrame fcs))).upstreamSends
        = (fcs.filter (fun fc => fc.name == "place_order")).map (fun fc => toolResponseFrame fc.id)
    ∧ (processGeminiFrame dbFail now db (some (toolCallFrame fcs))).err = none
    ∧ (processGeminiFrame dbFail now db (some (toolCallFrame fcs))).saves
        = (processGeminiFrame dbFail' now db (some (toolCallFrame fcs))).saves
    ∧ (processGeminiFrame dbFail now db (some (toolCallFrame fcs))).upstreamSends
        = (processGeminiFrame dbFail' now db (some (toolCallFrame fcs))).upstreamSends := by
  simp [processGeminiFrame_toolCallFrame]

/-- C4: a client frame parsed as a JSON object typed `"audio"` with an
`"audio"` payload is forwarded as exactly one upstream realtime-input
frame wrapping that payload; a JSON object frame whose type is not
`"audio"` produces no upstream send and no error (it is silently
dropped). -/
theorem outbound_audio_translation (fs : List (String × JValue)) (p : JValue) :
    (fs.lookup "type" = some (.str "audio") → fs.lookup "audio" = some p →
        browser_to_gemini_step (some (.obj fs)) = .ok (some (upstreamAudioFrame p)))
    ∧ (clientFrameTypeIsAudio fs = false →
        browser_to_gemini_step (some (.obj fs)) = .ok none) := by
  constructor
  · intro h1 h2
    simp [browser_to_gemini_step, h1, h2]
  · intro h
    unfold clientFrameTypeIsAudio at h
    unfold browser_to_gemini_step
    cases hlt : fs.lookup "type" with
    | none => simp [hlt]
    | some v =>
      cases v with
      | str s => simp [hlt] at h ⊢; simp [h]
      | null => simp [hlt]
      | bool b => simp [hlt]
      | num q => simp [hlt]
      | arr xs => simp [hlt]
      | obj gs => simp [hlt]

/-- Witness for C4 at the spec's own example frame and at a text frame. -/
theorem outbound_audio_translation_witness :
    browser_to_gemini_step (some (.obj [("type", .str "audio"), ("audio", .str "AAA=")]))
        = .ok (some (upstreamAudioFrame (.str "AAA=")))
    ∧ browser_to_gemini_step (some (.obj [("type", .str "text"), ("data", .str "x")]))
        = .ok none :=
  ⟨(outbound_audio_translation [("type", .str "audio"), ("audio", .str "AAA=")]
      (.str "AAA=")).1 rfl rfl,
   (outbound_audio_translation [("type", .str "text"), ("data", .str "x")]
      (.str "AAA=")).2 rfl⟩

/-- C5: an upstream server-content frame with parts yields exactly one
client audio frame per inline-data part, carrying that part's payload
verbatim, in part order; parts without inline data yield nothing; no
tool-call effects and no error occur. -/
theorem serverContent_inline_to_client_audio (dbFail : Bool) (now : Nat)
    (db : List OrderRec) (ps : List SCPart) :
    (processGeminiFrame dbFail now db (some (serverContentFrame ps))).clientSends
        = (ps.filterMap SCPart.inline).map clientAudioFrame
    ∧ (processGeminiFrame dbFail now db (some (serverContentFrame ps))).err = none
    ∧ (processGeminiFrame dbFail now db (some (serverContentFrame ps))).saves = []
    ∧ (processGeminiFrame dbFail now db (some (serverContentFrame ps))).upstreamSends = [] := by
  simp [processGeminiFrame_serverContentFrame]

/-- C6: when the database operation raises, `save_order` still returns
normally with the store unchanged (the exception is caught and logged
inside `save_order`), so the inbound loop processing a tool-call frame
neither fails nor changes its sent frames when persistence fails. -/
theorem persistence_failure_nonfatal (db : List OrderRec) (now : Nat)
    (item : JValue) (q : Int) (p : Rat) (fcs : List ToolCallFC) :
    save_order true db now item q p = .ok db
    ∧ (processGeminiFrame true now db (some (toolCallFrame fcs))).err = none
    ∧ (processGeminiFrame true now db (some (toolCallFrame fcs))).upstreamSends
        = (processGeminiFrame false now db (some (toolCallFrame fcs))).upstreamSends
    ∧ (processGeminiFrame true now db (some (toolCallFrame fcs))).clientSends
        = (processGeminiFrame false now db (some (toolCallFrame fcs))).clientSends := by
  refine ⟨save_order_eq true db now item q p, ?_, ?_, ?_⟩ <;>
    simp [processGeminiFrame_toolCallFrame]

/-- C3 counterexample: on the exit path where connect and setup succeed and
a forwarding loop ends with an error, `run` never closes the client
channel — `asyncio.wait` does not re-raise the loop's exception, so the
session-level `except` handler is not entered.  The claim that every exit
path closes the client channel exactly once is therefore false. -/
theorem session_close_counterexample :
    (GeminiChatbot.run .absent true true true).reachedRelaying = true
    ∧ (GeminiChatbot.run .absent true true true).loopErrorRaised = true
    ∧ (GeminiChatbot.run .absent true true true).clientCloses = 0
    ∧ (GeminiChatbot.run .absent true true true).clientCloses ≠ 1 :=
  ⟨rfl, rfl, rfl, by decide⟩

/-- C3 amended: the client channel is closed exactly once on the exit paths
where the upstream connect or the setup send fails, and zero times (never
twice) on the paths where the forwarding loops ran, whether or not a loop
ended with an error. -/
theorem session_close_amended (m : MenuState) (cOk sOk lf : Bool) :
    (GeminiChatbot.run m cOk sOk lf).clientCloses = (if cOk && sOk then 0 else 1)
    ∧ (GeminiChatbot.run m cOk sOk lf).clientCloses ≤ 1 := by
  refine ⟨?_, ?_⟩ <;> cases cOk <;> cases sOk <;> simp [GeminiChatbot.run]

/-- C7 counterexample: the tool-call path performs no validation, so a
`place_order` call with quantity `-3` creates an order record with a
non-positive quantity (and status `"pending"`), refuting the claim that
every record created through this path has a positive quantity. -/
theorem order_validation_counterexample :
    (processGeminiFrame false 0 []
        (some (toolCallFrame [⟨"place_order", .str "call-1", .str "Tea", -3, 350⟩]))).db
      = [⟨.str "Tea", -3, 350, "pending", 0⟩]
    ∧ ¬ (0 < (-3 : Int)) :=
  ⟨rfl, by decide⟩

/-- C7 amended: every record created through the `place_order` path has
status `"pending"` and creation timestamp assigned at insert time, with
item, quantity and price stored verbatim from the call's args (without any
positivity or non-negativity validation); the write path only appends, so
existing records are never modified. -/
theorem order_creation_amended (dbFail : Bool) (now : Nat) (db : List OrderRec)
    (fcs : List ToolCallFC) :
    (processGeminiFrame dbFail now db (some (toolCallFrame fcs))).db
        = db ++ (if dbFail then [] else
            ((fcs.filter (fun fc => fc.name == "place_order")).map (ToolCallFC.toOrder now)))
    ∧ (((fcs.filter (fun fc => fc.name == "place_order")).map (ToolCallFC.toOrder now)).all
        (fun r => r.status == "pending" && r.created_at == now)) = true := by
  constructor
  · simp [processGeminiFrame_toolCallFrame]
  · simp only [List.all_eq_true]
    intro r hr
    obtain ⟨fc, _, rfl⟩ := List.mem_map.mp hr
    simp [ToolCallFC.toOrder]

/-- C8: when `menu.json` is absent or unreadable, the menu text embedded in
the handshake is the fixed placeholder `"Menu not available."`, the setup
frame is still sent, and the session proceeds to the relaying phase; the
menu failure is never fatal. -/
theorem menu_fallback (m : MenuState) (lf : Bool)
    (h : m = .absent ∨ m = .unreadable) :
    load_menu m = "Menu not available."
    ∧ GeminiChatbot.run m true true lf =
        { setupSent := some (setupFrame "Menu not available."), clientCloses := 0,
          reachedRelaying := true, loopErrorRaised := lf } := by
  rcases h with h | h <;> subst h <;> exact ⟨rfl, rfl⟩

/-- Witness for C8 at the absent-menu state. -/
theorem menu_fallback_witness :
    load_menu .absent = "Menu not available."
    ∧ GeminiChatbot.run .absent true true false =
        { setupSent := some (setupFrame "Menu not available."), clientCloses := 0,
          reachedRelaying := true, loopErrorRaised := false } :=
  menu_fallback .absent false (Or.inl rfl)

/-- C9: the order-listing read path returns a permutation of all persisted
orders, sorted by creation timestamp newest first. -/
theorem get_orders_sorted (db : List OrderRec) :
    (get_orders db).Perm db
    ∧ (get_orders db).Sorted (fun a b => b.created_at ≤ a.created_at) := by
  constructor
  · exact List.perm_insertionSort _ _
  · haveI : IsTotal OrderRec (fun a b => b.created_at ≤ a.created_at) :=
      ⟨fun a b => Nat.le_total _ _⟩
    haveI : IsTrans OrderRec (fun a b => b.created_at ≤ a.created_at) :=
      ⟨fun a b c h1 h2 => Nat.le_trans h2 h1⟩
    exact List.sorted_insertionSort _ db

/-- C10 counterexample: the frame `[]` is valid JSON and is not an
audio-typed object missing its payload, yet the outbound loop fails on it
(`.get` on a list raises AttributeError), refuting the claimed
if-and-only-if condition. -/
theorem outbound_fatal_counterexample :
    outboundStepFatal (some (.arr [])) = true
    ∧ claimedOutboundFatal (some (.arr [])) = false :=
  ⟨rfl, rfl⟩

/-- C10 amended: one outbound-loop iteration fails (assuming the upstream
send succeeds) exactly when the frame is not valid JSON, or parses to a
non-object JSON value, or is a JSON object typed `"audio"` without an
`"audio"` key; in particular an audio-typed object without a payload is
fatal rather than silently dropped. -/
theorem outbound_fatal_characterization (parsed : Option JValue) :
    outboundStepFatal parsed = amendedOutboundFatal parsed := by
  match parsed with
  | none => rfl
  | some .null => rfl
  | some (.bool b) => rfl
  | some (.num q) => rfl
  | some (.str s) => rfl
  | some (.arr xs) => rfl
  | some (.obj fs) =>
    unfold outboundStepFatal browser_to_gemini_step amendedOutboundFatal clientFrameTypeIsAudio
    cases hlt : fs.lookup "type" with
    | none => simp [hlt]
    | some v =>
      cases v with
      | str s =>
        cases hs : (s == "audio") with
        | false => simp [hlt, hs]
        | true =>
          cases ha : fs.lookup "audio" with
          | none => simp [hlt, hs, ha]
          | some p => simp [hlt, hs, ha]
      | null => simp [hlt]
      | bool b => simp [hlt]
      | num q => simp [hlt]
      | arr xs => simp [hlt]
      | obj gs => simp [hlt]
